import Mathlib

/-!
Shallow embedding of the trojan-exoplanets simulator.

Numeric conventions: numpy double-precision values are modelled as real
numbers (no overflow or rounding); numpy 3-arrays are modelled as `Vec3`,
a triple of reals.  Where a claim hinges on IEEE non-finite results, a
refined scalar type `RVal` tracks non-finiteness explicitly.
-/

namespace Trojan

/-- Model of a numpy 3-array of floats: a triple of real numbers. -/
structure Vec3 where
  x : ℝ
  y : ℝ
  z : ℝ

/-- Componentwise addition, as numpy `+` on 3-arrays. -/
noncomputable def Vec3.add (a b : Vec3) : Vec3 := ⟨a.x + b.x, a.y + b.y, a.z + b.z⟩

noncomputable instance : Add Vec3 := ⟨Vec3.add⟩

/-- Componentwise subtraction, as numpy `-` on 3-arrays. -/
noncomputable def Vec3.sub (a b : Vec3) : Vec3 := ⟨a.x - b.x, a.y - b.y, a.z - b.z⟩

noncomputable instance : Sub Vec3 := ⟨Vec3.sub⟩

/-- Scalar times vector, as numpy `c * v` broadcasting. -/
noncomputable def Vec3.scale (c : ℝ) (v : Vec3) : Vec3 := ⟨c * v.x, c * v.y, c * v.z⟩

noncomputable instance : HMul ℝ Vec3 Vec3 := ⟨Vec3.scale⟩

/-- Vector times scalar, as numpy `v * c` broadcasting. -/
noncomputable def Vec3.scaleR (v : Vec3) (c : ℝ) : Vec3 := ⟨v.x * c, v.y * c, v.z * c⟩

noncomputable instance : HMul Vec3 ℝ Vec3 := ⟨Vec3.scaleR⟩

/-- Vector divided by scalar, as numpy `v / c` broadcasting. -/
noncomputable def Vec3.sdiv (v : Vec3) (c : ℝ) : Vec3 := ⟨v.x / c, v.y / c, v.z / c⟩

noncomputable instance : HDiv Vec3 ℝ Vec3 := ⟨Vec3.sdiv⟩

/-- `np.zeros(3)`. -/
def Vec3.zero : Vec3 := ⟨0, 0, 0⟩

instance : Zero Vec3 := ⟨Vec3.zero⟩

/-- `np.linalg.norm`, the Euclidean norm of a 3-array. -/
noncomputable def Vec3.norm (v : Vec3) : ℝ := Real.sqrt (v.x ^ 2 + v.y ^ 2 + v.z ^ 2)

/-- Newton gravitational constant, `propogate_orbits.py` line 8. -/
noncomputable def G : ℝ := 6.67430e-11

/-- Physical state of one body: the fields of `CelestialBody` that the
numerical core reads (`mass`, `position`, `velocity`).  The bookkeeping
fields `name`, `body_type`, `radius` play no role in the arithmetic of
`g`, `propogate_orbits`, or the orbital-element methods and are omitted
from this physical model (the parsing layer below models them). -/
structure CelestialBody where
  mass : ℝ
  position : Vec3
  velocity : Vec3

/-- One summand of the loop body of `g` (`propogate_orbits.py` lines
34-40): `G * mass_body * r / (np.linalg.norm(r) ** 3)` where
`r = pos - pos_body`. -/
noncomputable def gravContrib (pos : Vec3) (b : CelestialBody) : Vec3 :=
  let r := pos - b.position
  (G * b.mass) * r / (Vec3.norm r ^ 3)

/-- The accumulation loop of `g`: Python `for i in range(1, len(bodies))`
with guard `if i != index`, written as a walk over the whole list with an
explicit element counter `i` and the range lower bound expressed as the
guard `1 ≤ i`. -/
noncomputable def gAux (index : ℕ) (pos : Vec3) : ℕ → List CelestialBody → Vec3 → Vec3
  | _, [], acc => acc
  | i, b :: rest, acc =>
      gAux index pos (i + 1) rest
        (if 1 ≤ i ∧ i ≠ index then acc - gravContrib pos b else acc)

/-- `g(index, pos, bodies)` from `propogate_orbits.py` lines 11-42: the
acceleration at `pos` summed over the bodies at indices `1, …, len-1`
other than `index`; the accumulator starts at `np.zeros(3)`.  Note the
loop starts at index 1: the body at index 0 never contributes. -/
noncomputable def g (index : ℕ) (pos : Vec3) (bodies : List CelestialBody) : Vec3 :=
  gAux index pos 0 bodies 0

/-- The summation loop written from the words of the specification
(section 4.1): the sum runs over every body in the list other than the
target index, including index 0.  Used only to compare against `g`. -/
noncomputable def gSpecAux (index : ℕ) (pos : Vec3) : ℕ → List CelestialBody → Vec3 → Vec3
  | _, [], acc => acc
  | i, b :: rest, acc =>
      gSpecAux index pos (i + 1) rest
        (if i ≠ index then acc - gravContrib pos b else acc)

/-- The gravity field of the specification, section 4.1:
`a(p) = -G · Σ_{j ≠ target} mass_j · (p − position_j) / |p − position_j|³`,
the sum skipping only the target index. -/
noncomputable def gSpec (index : ℕ) (pos : Vec3) (bodies : List CelestialBody) : Vec3 :=
  gSpecAux index pos 0 bodies 0

/-- Python runtime exceptions raised by the embedded code paths. -/
inductive PyExn where
  | typeErrorMissingArg
  | typeErrorConstructorKwargs
  | attributeError (attr : String)
  | indexError
  | valueErrorFloat
  | invalidTypeToken
  | invalidKey
  | positionArity
  | velocityArity
  | multiStarError
  | trojanPairError
deriving DecidableEq

/-- The per-body update of `propogate_orbits` (`propogate_orbits.py`
lines 66-83).  The first two Runge-Kutta stages are computed as written;
line 74 then evaluates `g(i, pos + k2x / 2)` without the mandatory
`bodies` argument, which raises `TypeError` before any further stage or
any state mutation.  The remaining source lines (k3x through the
position/velocity writes) are therefore unreachable. -/
noncomputable def updateBody (bodies : List CelestialBody) (time_step : ℝ) (i : ℕ) :
    Except PyExn CelestialBody :=
  let b := bodies.getD i ⟨0, 0, 0⟩
  let pos := b.position
  let vel := b.velocity
  let k1v := g i pos bodies * time_step
  let k1x := vel * time_step
  let k2v := g i (pos + k1x / (2 : ℝ)) bodies * time_step
  let k2x := (vel + k1v / (2 : ℝ)) * time_step
  -- line 74: `k3v = g(i, pos + k2x / 2) * time_step` — the call omits
  -- `bodies`, so Python raises TypeError here.
  .error .typeErrorMissingArg

/-- The update loop of `propogate_orbits` over the indices
`range(1, len(bodies))`, threading the (in-place mutated) body list.  An
uncaught exception stops the loop and surfaces together with the list
state reached at that point. -/
noncomputable def propLoop (time_step : ℝ) :
    List ℕ → List CelestialBody → List CelestialBody × Option PyExn
  | [], bodies => (bodies, none)
  | i :: rest, bodies =>
      match updateBody bodies time_step i with
      | .ok b => propLoop time_step rest (bodies.set i b)
      | .error e => (bodies, some e)

/-- `propogate_orbits(bodies, time_step)` from `propogate_orbits.py`
lines 45-85: update positions and velocities of the bodies at indices
`1, …, len-1`; the star at index 0 is never touched.  The result is the
final list state paired with the exception, if one was raised. -/
noncomputable def propogate_orbits (bodies : List CelestialBody) (time_step : ℝ) :
    List CelestialBody × Option PyExn :=
  propLoop time_step (List.range' 1 (bodies.length - 1)) bodies

/-- `n` successive calls of the propagator, as the simulation loop would
make while no exception is raised; an exception ends the run with the
list state it left behind. -/
noncomputable def iterateProp :
    ℕ → List CelestialBody → ℝ → List CelestialBody × Option PyExn
  | 0, bodies, _ => (bodies, none)
  | n + 1, bodies, time_step =>
      match propogate_orbits bodies time_step with
      | (bodies2, none) => iterateProp n bodies2 time_step
      | (bodies2, some e) => (bodies2, some e)

/-- `CelestialBody.standard_gravitational_parameter` (`celestial_body.py`
lines 175-192): `mu = G * (self.mass + central.mass)`. -/
noncomputable def CelestialBody.standard_gravitational_parameter
    (self central : CelestialBody) : ℝ :=
  G * (self.mass + central.mass)

/-- `CelestialBody.specific_orbital_energy` (`celestial_body.py` lines
122-146): `r` the orbital distance, `v = sqrt(G * central.mass / r)` the
circular-speed approximation, `epsilon = v^2 / 2 - mu / r`. -/
noncomputable def CelestialBody.specific_orbital_energy
    (self central : CelestialBody) : ℝ :=
  let r := Vec3.norm (self.position - central.position)
  let v := Real.sqrt (G * central.mass / r)
  let mu := self.standard_gravitational_parameter central
  v ^ 2 / 2 - mu / r

/-- `CelestialBody.semimajor_axis` (`celestial_body.py` lines 149-172):
`a = -mu / (2 * epsilon)`. -/
noncomputable def CelestialBody.semimajor_axis (self central : CelestialBody) : ℝ :=
  let mu := self.standard_gravitational_parameter central
  let epsilon := self.specific_orbital_energy central
  let a := -mu / (2 * epsilon)
  a

/-- `CelestialBody.orbital_period` (`celestial_body.py` lines 97-119):
the body of the method computes `T = 2 * np.pi * np.sqrt((a ** 3) / mu)`
but the final statement is `return mu`, so the value returned is the
standard gravitational parameter, not `T`. -/
noncomputable def CelestialBody.orbital_period (self central : CelestialBody) : ℝ :=
  let a := self.semimajor_axis central
  let mu := self.standard_gravitational_parameter central
  let T := 2 * Real.pi * Real.sqrt (a ^ 3 / mu)
  mu

/-- IEEE-aware scalar for the singularity analysis of `g`: a double is
either a finite real or a non-finite value (NaN or an infinity).  The
exact-real model above cannot express the result of dividing by an exact
zero; this refinement tracks it.  The arithmetic below is sound for the
dataflow of `g`: body data is finite, denominators are the only division
inputs that can be zero, and a non-finite intermediate propagates
through every later addition, subtraction and multiplication, exactly as
NaN and infinities do in IEEE arithmetic. -/
inductive RVal where
  | fin : ℝ → RVal
  | nonfin : RVal

/-- Addition: finite plus finite is finite; any non-finite operand makes
the result non-finite (for NaN always; for infinities in every case that
arises in `g`). -/
noncomputable def RVal.add : RVal → RVal → RVal
  | .fin a, .fin b => .fin (a + b)
  | _, _ => .nonfin

/-- Subtraction, with the same non-finiteness propagation. -/
noncomputable def RVal.sub : RVal → RVal → RVal
  | .fin a, .fin b => .fin (a - b)
  | _, _ => .nonfin

/-- Multiplication, with the same non-finiteness propagation. -/
noncomputable def RVal.mul : RVal → RVal → RVal
  | .fin a, .fin b => .fin (a * b)
  | _, _ => .nonfin

/-- Division: a finite numerator over an exactly-zero denominator is
non-finite (NaN when the numerator is zero, an infinity otherwise);
otherwise finite over finite is finite, and a non-finite operand
propagates. -/
noncomputable def RVal.div : RVal → RVal → RVal
  | .fin a, .fin b => if b = 0 then .nonfin else .fin (a / b)
  | _, _ => .nonfin

/-- A 3-array whose components carry the non-finiteness refinement. -/
structure VecR where
  x : RVal
  y : RVal
  z : RVal

/-- Componentwise subtraction on refined 3-arrays (`g -= ...`). -/
noncomputable def VecR.subv (a b : VecR) : VecR :=
  ⟨a.x.sub b.x, a.y.sub b.y, a.z.sub b.z⟩

/-- The loop-body contribution of `g` (lines 34-40) in the refined
model: `G * mass_body * r / (np.linalg.norm(r) ** 3)` computed
componentwise.  `r` and its norm are exact (body data is finite); the
division is where a zero distance turns the result non-finite. -/
noncomputable def gravContribChk (pos : Vec3) (b : CelestialBody) : VecR :=
  let r := pos - b.position
  let n3 : RVal := .fin (Vec3.norm r ^ 3)
  ⟨((RVal.fin G).mul (.fin b.mass) |>.mul (.fin r.x)).div n3,
   ((RVal.fin G).mul (.fin b.mass) |>.mul (.fin r.y)).div n3,
   ((RVal.fin G).mul (.fin b.mass) |>.mul (.fin r.z)).div n3⟩

/-- The accumulation loop of `g` in the refined model, same loop shape
as `gAux`. -/
noncomputable def gChkAux (index : ℕ) (pos : Vec3) : ℕ → List CelestialBody → VecR → VecR
  | _, [], acc => acc
  | i, b :: rest, acc =>
      gChkAux index pos (i + 1) rest
        (if 1 ≤ i ∧ i ≠ index then acc.subv (gravContribChk pos b) else acc)

/-- `g(index, pos, bodies)` in the refined model: same code path as `g`,
but the scalar arithmetic records whether a component became non-finite.
There is no error path: the function always returns a vector. -/
noncomputable def gChk (index : ℕ) (pos : Vec3) (bodies : List CelestialBody) : VecR :=
  gChkAux index pos 0 bodies ⟨.fin 0, .fin 0, .fin 0⟩

/-- A refined vector all of whose components are non-finite (what numpy
prints as an all-NaN array in the coincident-bodies case). -/
def VecR.allNaN : VecR := ⟨.nonfin, .nonfin, .nonfin⟩

/-- Attribute lookup `body.period` as performed by `check_margins`
(`trojan_exoplanets.py` lines 154-155); class `CelestialBody` defines
`orbital_period` and no attribute named `period`, so the lookup raises
`AttributeError`. -/
noncomputable def period_attr (self central : CelestialBody) :
    Except PyExn ℝ :=
  .error (.attributeError "period")

/-- The decision arithmetic of `check_margins` (`trojan_exoplanets.py`
lines 158-163) as a function of the two periods: percent difference
`(|P1 - P2| / average(P1, P2)) * 100`, returning
`not (p_diff > margin)`. -/
noncomputable def check_margins_core (P1 P2 margin : ℝ) : Prop :=
  ¬ ((|P1 - P2| / ((P1 + P2) / 2)) * 100 > margin)

/-- `check_margins(trojan1, trojan2, central, margin)`
(`trojan_exoplanets.py` lines 135-163): fetch the two periods via the
`period` attribute, then apply the margin decision. -/
noncomputable def check_margins (trojan1 trojan2 central : CelestialBody)
    (margin : ℝ) : Except PyExn Prop :=
  match period_attr trojan1 central with
  | .error e => .error e
  | .ok P1 =>
      match period_attr trojan2 central with
      | .error e => .error e
      | .ok P2 => .ok (check_margins_core P1 P2 margin)

/-- `CelestialType` enumeration (`celestial_body.py` lines 8-11). -/
inductive CelestialType where
  | STAR
  | GIANT
  | TERRESTRIAL
deriving DecidableEq

/-- Python `str.split(sep)` for a one-character separator, on strings
modelled as character lists; empty pieces are kept, as in Python. -/
def splitChar (sep : Char) : List Char → List (List Char)
  | [] => [[]]
  | c :: rest =>
      match splitChar sep rest with
      | [] => [[]]
      | piece :: pieces =>
          if c = sep then [] :: piece :: pieces
          else (c :: piece) :: pieces

/-- Numeric value of a decimal digit character. -/
def charDigit (c : Char) : ℕ := c.toNat - 48

/-- All characters are decimal digits. -/
def allDigits (cs : List Char) : Bool := cs.all (fun c => c.isDigit)

/-- Value of a nonempty digit string. -/
def digitsVal (cs : List Char) : ℕ := cs.foldl (fun n c => 10 * n + charDigit c) 0

/-- Unsigned part of Python `float(s)`: plain decimal forms
`digits`, `digits.digits`, `digits.` and `.digits` (the forms the
initial-condition files use; exponent forms, inf and nan are outside the
model).  Anything else raises `ValueError`. -/
def pythonFloatCore (s : List Char) : Except PyExn ℚ :=
  match splitChar '.' s with
  | [ip] =>
      if !ip.isEmpty && allDigits ip then .ok (digitsVal ip : ℚ)
      else .error .valueErrorFloat
  | [ip, fp] =>
      if (!ip.isEmpty || !fp.isEmpty) && allDigits ip && allDigits fp then
        .ok ((digitsVal ip : ℚ) + (digitsVal fp : ℚ) / ((10 : ℚ) ^ fp.length))
      else .error .valueErrorFloat
  | _ => .error .valueErrorFloat

/-- Python `float(s)` with an optional leading sign. -/
def pythonFloat (s : List Char) : Except PyExn ℚ :=
  match s with
  | '-' :: rest =>
      match pythonFloatCore rest with
      | .ok q => .ok (-q)
      | .error e => .error e
  | '+' :: rest => pythonFloatCore rest
  | _ => pythonFloatCore s

/-- The local parse state of `parse_line` (`trojan_exoplanets.py` lines
27-34): the variables used to construct the `CelestialBody` object.
Python initializes `body_type = -1`, an out-of-enumeration sentinel,
modelled as `none`. -/
structure ParsedParams where
  btype : Option CelestialType
  trojan : Bool
  name : List Char
  mass : ℚ
  radius : ℚ
  position : ℚ × ℚ × ℚ
  velocity : ℚ × ℚ × ℚ
deriving DecidableEq

/-- Initial values of the parse state (lines 28-34). -/
def initParams : ParsedParams := ⟨none, false, [], 0, 0, (0, 0, 0), (0, 0, 0)⟩

/-- Python `tokens[1]`: the value part of a `key=value` token, an
`IndexError` when absent. -/
def tok1 (tokens : List (List Char)) : Except PyExn (List Char) :=
  match tokens[1]? with
  | some v => .ok v
  | none => .error .indexError

/-- One iteration of the token loop of `parse_line` (lines 37-75):
position `0` must be a valid body-type word; any later token is split on
`=` and dispatched on its key. -/
def handle_token (i : ℕ) (param : List Char) (st : ParsedParams) :
    Except PyExn ParsedParams :=
  if i = 0 then
    if param = "STAR".toList then .ok { st with btype := some .STAR }
    else if param = "GIANT".toList then .ok { st with btype := some .GIANT }
    else if param = "TERRESTRIAL".toList then .ok { st with btype := some .TERRESTRIAL }
    else .error .invalidTypeToken
  else
    let tokens := splitChar '=' param
    let k := tokens.headD []
    if k = "trojan".toList then
      match tok1 tokens with
      | .error e => .error e
      | .ok v => .ok { st with trojan := v = "True".toList }
    else if k = "name".toList then
      match tok1 tokens with
      | .error e => .error e
      | .ok v => .ok { st with name := v }
    else if k = "mass".toList then
      match tok1 tokens with
      | .error e => .error e
      | .ok v =>
          match pythonFloat v with
          | .error e => .error e
          | .ok q => .ok { st with mass := q }
    else if k = "radius".toList then
      match tok1 tokens with
      | .error e => .error e
      | .ok v =>
          match pythonFloat v with
          | .error e => .error e
          | .ok q => .ok { st with radius := q }
    else if k = "position".toList then
      match tok1 tokens with
      | .error e => .error e
      | .ok v =>
          let vals := splitChar ',' v
          if vals.length ≠ 3 then .error .positionArity
          else
            match pythonFloat (vals.getD 0 []), pythonFloat (vals.getD 1 []),
                pythonFloat (vals.getD 2 []) with
            | .ok q0, .ok q1, .ok q2 => .ok { st with position := (q0, q1, q2) }
            | .error e, _, _ => .error e
            | _, .error e, _ => .error e
            | _, _, .error e => .error e
    else if k = "velocity".toList then
      match tok1 tokens with
      | .error e => .error e
      | .ok v =>
          let vals := splitChar ',' v
          if vals.length ≠ 3 then .error .velocityArity
          else
            match pythonFloat (vals.getD 0 []), pythonFloat (vals.getD 1 []),
                pythonFloat (vals.getD 2 []) with
            | .ok q0, .ok q1, .ok q2 => .ok { st with velocity := (q0, q1, q2) }
            | .error e, _, _ => .error e
            | _, .error e, _ => .error e
            | _, _, .error e => .error e
    else .error .invalidKey

/-- The `for i, param in enumerate(params)` loop of `parse_line`,
stopping at the first raised exception. -/
def parse_tokens_aux : ℕ → List (List Char) → ParsedParams → Except PyExn ParsedParams
  | _, [], st => .ok st
  | i, param :: rest, st =>
      match handle_token i param st with
      | .ok st2 => parse_tokens_aux (i + 1) rest st2
      | .error e => .error e

/-- The parameters declared by `CelestialBody.__init__`
(`celestial_body.py` lines 33-35), all without default values. -/
def celestial_body_init_params : List String :=
  ["name", "body_type", "mass", "radius", "position", "velocity",
   "apoapsis", "periapsis"]

/-- The keyword arguments of the `CelestialBody(...)` call in
`parse_line` (`trojan_exoplanets.py` lines 77-79). -/
def parse_line_call_kwargs : List String :=
  ["type", "trojan", "name", "mass", "radius", "position", "velocity"]

/-- Python keyword binding for a call made purely with keyword
arguments: it succeeds iff every keyword names a declared parameter and
every default-less parameter receives a keyword; otherwise the call
raises `TypeError`. -/
def kwargs_bind_ok : Bool :=
  parse_line_call_kwargs.all (fun k => celestial_body_init_params.contains k) &&
  celestial_body_init_params.all (fun p => parse_line_call_kwargs.contains p)

/-- A constructed `CelestialBody` object at parse-file fidelity: exactly
the attributes that `__init__` assigns (`celestial_body.py` lines
36-41), with parsed numbers kept as rationals.  Note there is no
attribute named `type`, `trojan` or `period`. -/
structure PyCelestialBody where
  name : List Char
  body_type : Option CelestialType
  mass : ℚ
  radius : ℚ
  position : ℚ × ℚ × ℚ
  velocity : ℚ × ℚ × ℚ
deriving DecidableEq

/-- The `CelestialBody(type=..., trojan=..., name=..., mass=...,
radius=..., position=..., velocity=...)` call of `parse_line` (lines
77-79): keyword binding against `__init__` fails (`type` and `trojan`
are not declared parameters, `body_type`, `apoapsis` and `periapsis`
receive no argument), so the call raises `TypeError` and no object is
produced. -/
def constructCelestialBody (st : ParsedParams) : Except PyExn PyCelestialBody :=
  if kwargs_bind_ok then
    .ok ⟨st.name, st.btype, st.mass, st.radius, st.position, st.velocity⟩
  else .error .typeErrorConstructorKwargs

/-- `parse_line(line)` (`trojan_exoplanets.py` lines 10-81): split the
line on spaces, run the token loop, then construct the object. -/
def parse_line (line : List Char) : Except PyExn PyCelestialBody :=
  match parse_tokens_aux 0 (splitChar ' ' line) initParams with
  | .ok st => constructCelestialBody st
  | .error e => .error e

/-- Attribute lookup `body.type` (`trojan_exoplanets.py` lines 111 and
127): instances carry `body_type`, not `type`, so this raises
`AttributeError`. -/
def getattr_type (_body : PyCelestialBody) : Except PyExn (Option CelestialType) :=
  .error (.attributeError "type")

/-- Attribute lookup `body.trojan` (`trojan_exoplanets.py` line 115):
no such attribute is assigned, so this raises `AttributeError`. -/
def getattr_trojan (_body : PyCelestialBody) : Except PyExn Bool :=
  .error (.attributeError "trojan")

/-- The `for i, line in enumerate(lines)` loop of `parse_system`
(`trojan_exoplanets.py` lines 108-121), threading
`(bodies, star_count, trojan_count, trojans)`.  `trojans[trojan_count] = i`
is an `IndexError` when `trojan_count` reaches the length of the
two-slot list. -/
def parse_system_loop :
    ℕ → List (List Char) → List PyCelestialBody × ℕ × ℕ × List ℕ →
    Except PyExn (List PyCelestialBody × ℕ × ℕ × List ℕ)
  | _, [], st => .ok st
  | i, line :: rest, (bodies, star_count, trojan_count, trojans) =>
      match parse_line line with
      | .error e => .error e
      | .ok body =>
          match getattr_type body with
          | .error e => .error e
          | .ok t =>
              let star_count2 := if t = some CelestialType.STAR then star_count + 1 else star_count
              match getattr_trojan body with
              | .error e => .error e
              | .ok tr =>
                  match (if tr then
                          (if trojan_count < trojans.length then
                            Except.ok (trojans.set trojan_count i, trojan_count + 1)
                          else Except.error PyExn.indexError)
                        else .ok (trojans, trojan_count)) with
                  | .error e => .error e
                  | .ok (trojans2, trojan_count2) =>
                      if star_count2 > 1 then .error .multiStarError
                      else parse_system_loop (i + 1) rest
                        (bodies ++ [body], star_count2, trojan_count2, trojans2)

/-- The star-fronting loop of `parse_system` (lines 128-130): walk the
indices and swap any STAR body to position 0; every iteration reads
`bodies[i].type`. -/
def star_front_loop : List ℕ → List PyCelestialBody → Except PyExn (List PyCelestialBody)
  | [], bodies => .ok bodies
  | i :: rest, bodies =>
      match bodies[i]? with
      | none => .error .indexError
      | some b =>
          match getattr_type b with
          | .error e => .error e
          | .ok t =>
              if t = some CelestialType.STAR then
                star_front_loop rest ((bodies.set 0 (bodies.getD i b)).set i (bodies.getD 0 b))
              else star_front_loop rest bodies

/-- `parse_system(file)` (`trojan_exoplanets.py` lines 84-132) on the
list of lines read from the file: run the per-line loop, check the
Trojan-pair count, then move the star to index 0 if needed. -/
def parse_system (lines : List (List Char)) :
    Except PyExn (List PyCelestialBody × List ℕ) :=
  match parse_system_loop 0 lines ([], 0, 0, [0, 0]) with
  | .error e => .error e
  | .ok (bodies, _star_count, trojan_count, trojans) =>
      if trojan_count ≠ 2 then .error .trojanPairError
      else
        match bodies[0]? with
        | none => .error .indexError
        | some b0 =>
            match getattr_type b0 with
            | .error e => .error e
            | .ok t0 =>
                if t0 ≠ some CelestialType.STAR then
                  match star_front_loop (List.range bodies.length) bodies with
                  | .error e => .error e
                  | .ok bodies2 => .ok (bodies2, trojans)
                else .ok (bodies, trojans)

/-- The top-level names defined by module `propogate_orbits.py`. -/
def propogate_orbits_module_names : List String := ["G", "g", "propogate_orbits"]

/-- The propagator name `trojan_exoplanets.py` imports from
`propogate_orbits` (line 7) and calls in the simulation loop (line 234). -/
def simulate_propagator_name : String := "propogate_Verlet"

/-- The attributes available on `CelestialBody` instances: the fields
assigned by `__init__` together with the methods defined by the class
(`celestial_body.py`). -/
def celestial_body_attributes : List String :=
  ["name", "body_type", "mass", "radius", "position", "velocity",
   "angular_momentum", "eccentricity", "orbital_period",
   "specific_orbital_energy", "semimajor_axis",
   "standard_gravitational_parameter"]

/-- The attribute through which the simulation loop and `check_margins`
sample orbital periods (`trojan_exoplanets.py` lines 154-155, 243-244,
251-252). -/
def simulate_period_attribute : String := "period"

/-- Fixture: a 1 kg star at the origin, at rest. -/
noncomputable def star1 : CelestialBody := ⟨1, ⟨0, 0, 0⟩, ⟨0, 0, 0⟩⟩

/-- Fixture: a 1 kg planet at distance 1 m on the x-axis, at rest. -/
noncomputable def planet1 : CelestialBody := ⟨1, ⟨1, 0, 0⟩, ⟨0, 0, 0⟩⟩

/-- Fixture: a second 1 kg planet at 2 m on the x-axis, at rest. -/
noncomputable def planet2 : CelestialBody := ⟨1, ⟨2, 0, 0⟩, ⟨0, 0, 0⟩⟩

/-- Fixture: a central body of 1e11 kg at the origin. -/
noncomputable def central6 : CelestialBody := ⟨1e11, ⟨0, 0, 0⟩, ⟨0, 0, 0⟩⟩

/-- Fixture: an orbiter of 1e11 kg at distance 1 m on the x-axis. -/
noncomputable def orbiter6 : CelestialBody := ⟨1e11, ⟨1, 0, 0⟩, ⟨0, 0, 0⟩⟩

/-- Fixture input file: one STAR line and exactly two lines carrying
`trojan=True`. -/
def demo_system : List (List Char) :=
  ["STAR name=Sun".toList,
   "GIANT name=PlanetA trojan=True".toList,
   "GIANT name=PlanetB trojan=True".toList]

end Trojan

namespace Trojan

/-- Componentwise view of vector addition. -/
@[simp] theorem Vec3.add_def (a b : Vec3) :
    a + b = ⟨a.x + b.x, a.y + b.y, a.z + b.z⟩ := rfl

/-- Componentwise view of vector subtraction. -/
@[simp] theorem Vec3.sub_def (a b : Vec3) :
    a - b = ⟨a.x - b.x, a.y - b.y, a.z - b.z⟩ := rfl

/-- Componentwise view of scalar-times-vector. -/
@[simp] theorem Vec3.smul_def (c : ℝ) (v : Vec3) :
    c * v = ⟨c * v.x, c * v.y, c * v.z⟩ := rfl

/-- Componentwise view of vector-times-scalar. -/
@[simp] theorem Vec3.smulR_def (v : Vec3) (c : ℝ) :
    v * c = ⟨v.x * c, v.y * c, v.z * c⟩ := rfl

/-- Componentwise view of vector-divided-by-scalar. -/
@[simp] theorem Vec3.sdiv_def (v : Vec3) (c : ℝ) :
    v / c = ⟨v.x / c, v.y / c, v.z / c⟩ := rfl

/-- The zero vector, componentwise. -/
@[simp] theorem Vec3.zero_def : (0 : Vec3) = ⟨0, 0, 0⟩ := rfl

/-- First component of the zero vector. -/
@[simp] theorem Vec3.zero_x : (0 : Vec3).x = 0 := rfl

/-- Second component of the zero vector. -/
@[simp] theorem Vec3.zero_y : (0 : Vec3).y = 0 := rfl

/-- Third component of the zero vector. -/
@[simp] theorem Vec3.zero_z : (0 : Vec3).z = 0 := rfl

end Trojan

namespace Trojan

/-- Subtracting anything from a non-finite value stays non-finite. -/
theorem RVal.nonfin_sub (b : RVal) : RVal.sub .nonfin b = .nonfin := by
  cases b <;> rfl

/-- Subtracting a non-finite value from anything is non-finite. -/
theorem RVal.sub_nonfin (a : RVal) : RVal.sub a .nonfin = .nonfin := by
  cases a <;> rfl

/-- Componentwise subtraction from the all-non-finite vector stays
all-non-finite. -/
theorem VecR.allNaN_subv (c : VecR) : VecR.allNaN.subv c = VecR.allNaN := by
  simp [VecR.subv, VecR.allNaN, RVal.nonfin_sub]

/-- Componentwise subtraction of the all-non-finite vector yields the
all-non-finite vector. -/
theorem VecR.subv_allNaN (a : VecR) : a.subv VecR.allNaN = VecR.allNaN := by
  simp [VecR.subv, VecR.allNaN, RVal.sub_nonfin]

/-- A body coincident with the candidate position makes its whole
contribution non-finite: the relative position is the zero vector, its
norm cubed is exactly zero, and each component divides by that zero. -/
theorem gravContribChk_coincident (pos : Vec3) (b : CelestialBody)
    (h : b.position = pos) : gravContribChk pos b = VecR.allNaN := by
  simp [gravContribChk, h, Vec3.norm, RVal.mul, RVal.div, VecR.allNaN, Real.sqrt_zero]

/-- Once the accumulator of the refined gravity loop is all-non-finite,
it stays all-non-finite for the remainder of the loop. -/
theorem gChkAux_absorb (index : ℕ) (pos : Vec3) :
    ∀ (l : List CelestialBody) (i : ℕ),
      gChkAux index pos i l VecR.allNaN = VecR.allNaN := by
  intro l
  induction l with
  | nil => intro i; rfl
  | cons b rest ih =>
      intro i
      show gChkAux index pos (i + 1) rest
        (if 1 ≤ i ∧ i ≠ index then VecR.allNaN.subv (gravContribChk pos b) else VecR.allNaN) =
        VecR.allNaN
      rw [show (if 1 ≤ i ∧ i ≠ index then VecR.allNaN.subv (gravContribChk pos b)
            else VecR.allNaN) = VecR.allNaN by split <;> simp [VecR.allNaN_subv]]
      exact ih (i + 1)

/-- If some element of the remaining list coincides with the candidate
position and will be visited with a counter value that passes the loop
guard, the refined gravity loop ends all-non-finite. -/
theorem gChkAux_hit (index : ℕ) (pos : Vec3) :
    ∀ (l : List CelestialBody) (i0 : ℕ) (acc : VecR),
      (∃ j b, l[j]? = some b ∧ 1 ≤ i0 + j ∧ i0 + j ≠ index ∧ b.position = pos) →
      gChkAux index pos i0 l acc = VecR.allNaN := by
  intro l
  induction l with
  | nil =>
      intro i0 acc h
      obtain ⟨j, b, hj, -, -, -⟩ := h
      simp at hj
  | cons b0 rest ih =>
      intro i0 acc h
      obtain ⟨j, b, hj, h1, h2, h3⟩ := h
      show gChkAux index pos (i0 + 1) rest
        (if 1 ≤ i0 ∧ i0 ≠ index then acc.subv (gravContribChk pos b0) else acc) = VecR.allNaN
      cases j with
      | zero =>
          have hb : b0 = b := by simpa using hj
          have hp : b0.position = pos := by rw [hb]; exact h3
          have hguard : 1 ≤ i0 ∧ i0 ≠ index := by
            constructor
            · simpa using h1
            · simpa using h2
          rw [if_pos hguard, gravContribChk_coincident pos b0 hp, VecR.subv_allNaN]
          exact gChkAux_absorb index pos rest (i0 + 1)
      | succ j2 =>
          apply ih (i0 + 1)
          refine ⟨j2, b, by simpa using hj, by omega, by omega, h3⟩

/-- The per-body update always raises the `TypeError` of line 74. -/
theorem updateBody_raises (bodies : List CelestialBody) (dt : ℝ) (i : ℕ) :
    updateBody bodies dt i = .error .typeErrorMissingArg := rfl

/-- The propagation loop leaves the body list unchanged: every body
update raises before mutating, so the loop stops at its first index
(or never runs). -/
theorem propLoop_fst (dt : ℝ) (l : List ℕ) (bodies : List CelestialBody) :
    (propLoop dt l bodies).1 = bodies := by
  cases l with
  | nil => rfl
  | cons i rest => rfl

/-- One propagator call leaves the body list unchanged. -/
theorem propogate_orbits_fst (bodies : List CelestialBody) (dt : ℝ) :
    (propogate_orbits bodies dt).1 = bodies := propLoop_fst dt _ bodies

/-- Any number of propagator calls leaves the body list unchanged. -/
theorem iterateProp_fst :
    ∀ (n : ℕ) (bodies : List CelestialBody) (dt : ℝ),
      (iterateProp n bodies dt).1 = bodies := by
  intro n
  induction n with
  | zero => intro bodies dt; rfl
  | succ n ih =>
      intro bodies dt
      show (match propogate_orbits bodies dt with
            | (bodies2, none) => iterateProp n bodies2 dt
            | (bodies2, some e) => (bodies2, some e)).1 = bodies
      have hfst := propogate_orbits_fst bodies dt
      cases h : propogate_orbits bodies dt with
      | mk bodies2 o =>
          rw [h] at hfst
          have hfst2 : bodies2 = bodies := by simpa using hfst
          cases o with
          | none =>
              show (iterateProp n bodies2 dt).1 = bodies
              rw [ih bodies2 dt]
              exact hfst2
          | some e =>
              show bodies2 = bodies
              exact hfst2

/-- C1: the claim states that `g` sums the gravitational contributions
of every body other than the target, the star at index 0 included.  The
code loops over `range(1, len(bodies))`, so the star never contributes:
for a star and one planet, the acceleration the code computes for the
planet is the zero vector, while the specification formula gives the
nonzero pull `⟨-G, 0, 0⟩` of the star.  The code contradicts the
physical intent (a planet would feel no force from its star), so this is
recorded as a code bug. -/
theorem g_skips_star_counterexample :
    g 1 ⟨1, 0, 0⟩ [star1, planet1] = 0
    ∧ gSpec 1 ⟨1, 0, 0⟩ [star1, planet1] = ⟨-G, 0, 0⟩
    ∧ (⟨-G, 0, 0⟩ : Vec3) ≠ 0 := by
  refine ⟨rfl, ?_, ?_⟩
  · simp only [gSpec, gSpecAux, gravContrib, star1, planet1]
    norm_num [Vec3.norm, Real.sqrt_one]
  · intro h
    have h1 : -G = 0 := congrArg Vec3.x h
    norm_num [G] at h1

/-- C2: the claim states that one propagator call advances every body at
index ≥ 1 through the four classical RK4 stages.  In the code, the k3v
stage (line 74) calls `g(i, pos + k2x / 2)` without the mandatory
`bodies` argument, raising `TypeError`; evaluated on a concrete
two-body system, the call raises and leaves both bodies exactly as they
were, so no body is ever advanced. -/
theorem rk4_step_raises_type_error :
    propogate_orbits [star1, planet1] 1 =
      ([star1, planet1], some PyExn.typeErrorMissingArg) := rfl

/-- C3: the claim states that within one step every stage evaluation
uses the pre-step snapshot and the outcome is order-independent.  The
code never completes a step: on a concrete three-body system the first
advanced body's third stage raises `TypeError` (line 74), so no body
ever completes its four stages and no updated state exists.  (Had the
call been written like the other stages, the loop would still commit
each body's new state into the shared list at lines 82-83 before later
bodies run, exposing updated positions within the same step.) -/
theorem rk4_step_no_snapshot_semantics :
    propogate_orbits [star1, planet1, planet2] 1 =
      ([star1, planet1, planet2], some PyExn.typeErrorMissingArg) := rfl

/-- C4: the star at index 0 is exactly unchanged by any number of
propagator calls, on every body list and time step: the update loop runs
over `range(1, len(bodies))` only, and in fact no call mutates any state
before the loop's exception. -/
theorem star_state_invariant (bodies : List CelestialBody) (dt : ℝ) (n : ℕ) :
    ((iterateProp n bodies dt).1)[0]? = bodies[0]? := by
  rw [iterateProp_fst]

/-- C5 counterexample: the claim states that a zero pairwise distance
makes the gravity evaluator fail with a `DivisionSingularity` error
rather than return any (finite or non-finite) vector.  The code contains
no zero-distance check and no error path at all: evaluating the target
at index 2 at a candidate position coincident with the body at index 1,
the evaluator returns the vector whose components all became non-finite
(NaN) through the division by the zero norm — it returns a vector
instead of failing. -/
theorem g_singularity_counterexample :
    gChk 2 ⟨1, 0, 0⟩ [star1, planet1, planet2] = VecR.allNaN := by
  simp only [gChk, gChkAux, gravContribChk, VecR.allNaN, VecR.subv, star1, planet1, planet2]
  norm_num [Vec3.norm, RVal.mul, RVal.div, RVal.sub, Real.sqrt_zero]

/-- C5 amended: whenever some contributing source body (index ≥ 1, not
the target) sits exactly at the candidate position, the gravity
evaluator does not fail: it performs the division by the zero distance
and returns the vector all of whose components are non-finite (NaN in
IEEE arithmetic). -/
theorem g_singularity_returns_nonfinite (index : ℕ) (pos : Vec3)
    (bodies : List CelestialBody)
    (h : ∃ j b, bodies[j]? = some b ∧ 1 ≤ j ∧ j ≠ index ∧ b.position = pos) :
    gChk index pos bodies = VecR.allNaN := by
  apply gChkAux_hit index pos bodies 0
  simpa using h

/-- C5 witness: the amended theorem applied to the concrete coincident
configuration. -/
theorem g_singularity_returns_nonfinite_witness :
    (∃ j b, ([star1, planet1, planet2])[j]? = some b ∧ 1 ≤ j ∧ j ≠ 2 ∧
        b.position = Vec3.mk 1 0 0)
    ∧ gChk 2 ⟨1, 0, 0⟩ [star1, planet1, planet2] = VecR.allNaN := by
  have hh : ∃ j b, ([star1, planet1, planet2])[j]? = some b ∧ 1 ≤ j ∧ j ≠ 2 ∧
      b.position = Vec3.mk 1 0 0 :=
    ⟨1, planet1, rfl, le_refl 1, by omega, rfl⟩
  exact ⟨hh, g_singularity_returns_nonfinite 2 ⟨1, 0, 0⟩ [star1, planet1, planet2] hh⟩

/-- C6: the claim states that `orbital_period` returns
`T = 2π·√(a³/μ)`.  The method computes `T` but its final statement is
`return mu`: the returned value equals the standard gravitational
parameter for every pair of bodies, and on a concrete pair (masses
`1e11` kg, separation 1 m) the returned value `13.3486` strictly exceeds
the Kepler period `2π·√(a³/μ) < 0.945`, so the two never coincide
there. -/
theorem orbital_period_returns_mu :
    (∀ self central : CelestialBody,
      self.orbital_period central = self.standard_gravitational_parameter central)
    ∧ orbiter6.orbital_period central6 = 13.3486
    ∧ 2 * Real.pi * Real.sqrt ((orbiter6.semimajor_axis central6) ^ 3 /
        orbiter6.standard_gravitational_parameter central6) <
      orbiter6.orbital_period central6 := by
  have hmu : orbiter6.standard_gravitational_parameter central6 = 13.3486 := by
    norm_num [CelestialBody.standard_gravitational_parameter, orbiter6, central6, G]
  have hr : Vec3.norm (orbiter6.position - central6.position) = 1 := by
    norm_num [Vec3.norm, orbiter6, central6, Real.sqrt_one]
  have hsoe : orbiter6.specific_orbital_energy central6 = -10.01145 := by
    simp only [CelestialBody.specific_orbital_energy, hr, hmu]
    rw [Real.sq_sqrt (by norm_num [central6, G])]
    norm_num [central6, G]
  have hsma : orbiter6.semimajor_axis central6 = 2 / 3 := by
    simp only [CelestialBody.semimajor_axis, hsoe, hmu]
    norm_num
  have hper : orbiter6.orbital_period central6 = 13.3486 := by
    simpa only [CelestialBody.orbital_period] using hmu
  refine ⟨fun self central => rfl, hper, ?_⟩
  rw [hsma, hmu, hper]
  have hs : Real.sqrt ((2 / 3 : ℝ) ^ 3 / 13.3486) < 3 / 20 := by
    rw [show (3 / 20 : ℝ) = Real.sqrt ((3 / 20) ^ 2) from (Real.sqrt_sq (by norm_num)).symm]
    apply Real.sqrt_lt_sqrt (by norm_num)
    norm_num
  nlinarith [Real.pi_lt_d2, Real.pi_pos, Real.sqrt_nonneg ((2 / 3 : ℝ) ^ 3 / 13.3486), hs]

/-- C7: the claim states that each iteration of the stability loop
invokes the RK4 orbit propagator and samples periods yearly.  The module
`propogate_orbits` defines only `G`, `g` and `propogate_orbits`; the
loop imports and calls `propogate_Verlet`, a name the module does not
define, so the import fails before any simulation; likewise the yearly
sampling reads the attribute `period`, which class `CelestialBody` does
not provide (its method is `orbital_period`). -/
theorem simulate_names_unresolved :
    simulate_propagator_name ∉ propogate_orbits_module_names
    ∧ simulate_period_attribute ∉ celestial_body_attributes := by
  exact ⟨by decide, by decide⟩

/-- C8: the claim states that the margin check computes
`percentDiff = |P₁ − P₂| / mean(P₁, P₂) · 100` and stops exactly when it
exceeds the margin, keeping periods 100 d and 101 d running at margin
1.0 and stopping them at margin 0.5.  In the code, `check_margins` first
reads `trojan.period(central)` — an attribute `CelestialBody` does not
have — so every call raises `AttributeError` and the decision is never
evaluated.  The decision arithmetic itself (lines 158-163), taken as a
function of the two periods, does match the claim at the stated
boundary: percent difference `200/201 ≈ 0.995` passes margin 1.0 and
fails margin 0.5. -/
theorem check_margins_attribute_error :
    (∀ (t1 t2 c : CelestialBody) (m : ℝ),
        check_margins t1 t2 c m = .error (.attributeError "period"))
    ∧ check_margins_core 100 101 1.0
    ∧ ¬ check_margins_core 100 101 0.5 := by
  refine ⟨fun t1 t2 c m => rfl, ?_, ?_⟩
  · norm_num [check_margins_core]
  · norm_num [check_margins_core]

/-- C9: the claim states that `parse_system` raises the "must have a
single Trojan pair" error exactly when the number of `trojan=True` lines
differs from two, and returns normally when it is exactly two.  On a
file with one STAR line and exactly two `trojan=True` lines the code
instead raises the `TypeError` of the `CelestialBody(...)` call inside
`parse_line` on the very first line, which is a different error from the
Trojan-pair one; the Trojan-pair error is reachable only for an empty
file, where no line is parsed. -/
theorem parse_system_construction_crash :
    parse_system demo_system = .error .typeErrorConstructorKwargs
    ∧ parse_system [] = .error .trojanPairError
    ∧ PyExn.typeErrorConstructorKwargs ≠ PyExn.trojanPairError := by
  exact ⟨rfl, rfl, by decide⟩

/-- C10: `parse_line` never successfully returns a constructed body: the
constructor call passes keywords `type` and `trojan` that
`CelestialBody.__init__` does not declare and omits its mandatory
`body_type`, `apoapsis` and `periapsis` parameters, so keyword binding
raises `TypeError` on every line that survives token parsing, and every
other line raises a parse error earlier. -/
theorem parse_line_never_constructs :
    ("type" ∈ parse_line_call_kwargs ∧ "type" ∉ celestial_body_init_params)
    ∧ ("trojan" ∈ parse_line_call_kwargs ∧ "trojan" ∉ celestial_body_init_params)
    ∧ ("apoapsis" ∈ celestial_body_init_params ∧ "apoapsis" ∉ parse_line_call_kwargs)
    ∧ ("periapsis" ∈ celestial_body_init_params ∧ "periapsis" ∉ parse_line_call_kwargs)
    ∧ ∀ (line : List Char) (b : PyCelestialBody), parse_line line ≠ .ok b := by
  refine ⟨⟨by decide, by decide⟩, ⟨by decide, by decide⟩, ⟨by decide, by decide⟩,
    ⟨by decide, by decide⟩, ?_⟩
  intro line b h
  unfold parse_line at h
  cases hh : parse_tokens_aux 0 (splitChar ' ' line) initParams with
  | ok st =>
      rw [hh] at h
      unfold constructCelestialBody at h
      rw [show kwargs_bind_ok = false from by decide] at h
      simp at h
  | error e =>
      rw [hh] at h
      exact Except.noConfusion h

end Trojan
